import Mathlib

/-!
Shallow embedding of the `safe_exit` Python package
(`src/safe_exit/__init__.py`) and proofs about its specification.

The module keeps a process-wide list `_exit_funcs` of registered exit
actions (callable + captured args), a process-wide boolean `_registered`,
installs signal / console-control handlers, and offers `safe_kill` to
gracefully terminate another process.  Callables, their arguments and OS
effects are opaque to the termination logic, so they are embedded as
atoms (`Nat` for callables, lists for captured arguments) and the OS as
an explicit environment of outcomes.
-/

namespace SafeExit

/-- An entry of `_exit_funcs`: the tuple `(func, args, kwargs)` appended by
`register`.  The callable is an opaque atom; equality of entries is the
tuple equality Python uses in `unregister` (which compares `[0]`, the
callable, only). -/
structure ExitFunc where
  func : Nat
  args : List Nat
  kwargs : List (String × Nat)
deriving DecidableEq, Repr

/-- Result of one run of `_call_exit_funcs`: the actions invoked in order,
the error messages logged by the `except` clause, and the new value of the
global `_exit_funcs`. -/
structure DrainResult where
  invoked : List ExitFunc
  logged : List ExitFunc
  newFuncs : List ExitFunc
deriving DecidableEq, Repr

/-- The `for` loop of `_call_exit_funcs`: each entry is invoked; if the
call raises (`raises e = true`) the exception is caught and the failure is
logged, and the loop continues with the next entry. -/
def drainLoop (raises : ExitFunc → Bool) : List ExitFunc → List ExitFunc × List ExitFunc
  | [] => ([], [])
  | e :: rest =>
      let r := drainLoop raises rest
      (e :: r.1, (if raises e then [e] else []) ++ r.2)

/-- `_call_exit_funcs`: run the loop over the current `_exit_funcs`, then
rebind the global to `[]`. -/
def call_exit_funcs (raises : ExitFunc → Bool) (funcs : List ExitFunc) : DrainResult :=
  let r := drainLoop raises funcs
  { invoked := r.1, logged := r.2, newFuncs := [] }

/-- The body of `unregister`'s `while` loop: starting at index `idx`,
pop the entry when its callable equals `f`, otherwise advance the index. -/
def unregisterLoop (f : Nat) (idx : Nat) (l : List ExitFunc) : List ExitFunc :=
  if h : idx < l.length then
    if (l.get ⟨idx, h⟩).func = f then
      unregisterLoop f idx (l.eraseIdx idx)
    else
      unregisterLoop f (idx + 1) l
  else l
termination_by l.length - idx
decreasing_by
  all_goals first
    | (simp only [List.length_eraseIdx, if_pos h]; omega)
    | omega

/-- `unregister(func)`: run the while loop from index 0. -/
def unregister (f : Nat) (l : List ExitFunc) : List ExitFunc :=
  unregisterLoop f 0 l

/-- The loop never touches the prefix before `idx` and filters the rest. -/
theorem unregisterLoop_eq (f : Nat) :
    ∀ (l : List ExitFunc) (idx : Nat),
      unregisterLoop f idx l =
        l.take idx ++ (l.drop idx).filter (fun e => e.func ≠ f) := by
  intro l idx
  induction idx, l using unregisterLoop.induct f with
  | case1 idx l h hm ih =>
      rw [unregisterLoop, dif_pos h, if_pos hm, ih]
      have hidx : l.eraseIdx idx = l.take idx ++ l.drop (idx + 1) :=
        List.eraseIdx_eq_take_drop_succ l idx
      rw [hidx]
      have htake : (l.take idx ++ l.drop (idx + 1)).take idx = l.take idx := by
        rw [List.take_append_of_le_length]
        · simp [List.take_take]
        · simp [List.length_take]
          omega
      have hdrop : (l.take idx ++ l.drop (idx + 1)).drop idx = l.drop (idx + 1) := by
        rw [List.drop_append_of_le_length]
        · have : (l.take idx).length = idx := List.length_take_of_le (le_of_lt h)
          simp [this]
        · simp [List.length_take]
          omega
      rw [htake, hdrop]
      have hcons : l.drop idx = l[idx] :: l.drop (idx + 1) :=
        List.drop_eq_getElem_cons h
      simp only [List.get_eq_getElem] at hm
      rw [hcons, List.filter_cons]
      simp [hm]
  | case2 idx l h hm ih =>
      rw [unregisterLoop, dif_pos h, if_neg hm, ih]
      have hcons : l.drop idx = l[idx] :: l.drop (idx + 1) :=
        List.drop_eq_getElem_cons h
      have htake : l.take (idx + 1) = l.take idx ++ [l[idx]] := by
        rw [List.take_succ]
        simp [List.getElem?_eq_getElem h]
      simp only [List.get_eq_getElem] at hm
      rw [hcons, List.filter_cons]
      simp only [decide_eq_true_eq]
      rw [if_pos hm, htake, List.append_assoc, List.singleton_append]
  | case3 idx l h =>
      rw [unregisterLoop, dif_neg h]
      have hlen : l.length ≤ idx := le_of_not_lt h
      rw [List.take_of_length_le hlen, List.drop_eq_nil_of_le hlen]
      simp

/-- `unregister` is exactly the order-preserving filter dropping every
entry whose callable equals `f`. -/
theorem unregister_eq_filter (f : Nat) (l : List ExitFunc) :
    unregister f l = l.filter (fun e => e.func ≠ f) := by
  simpa using unregisterLoop_eq f l 0

/-! ## `safe_kill` -/

/-- The exceptions that can reach `safe_kill`'s caller. -/
inductive KillExn
  /-- `psutil.Process(pid)` raised: no process with that pid. -/
  | noSuchProcess
  /-- The graceful-termination step (`os.kill` / `_win_nice_kill`) raised. -/
  | gracefulError
  /-- `proc.wait(timeout_secs)` raised `TimeoutExpired`. -/
  | timeoutExpired
deriving DecidableEq, Repr

/-- The environment `safe_kill` runs against: the outcomes of the OS /
`psutil` calls it makes, in the order it makes them. -/
structure ProcEnv where
  /-- Whether `psutil.Process(pid)` succeeds (the pid exists). -/
  pidExists : Bool
  /-- Whether the graceful request (`os.kill` / `_win_nice_kill`) raises. -/
  gracefulRaises : Bool
  /-- Whether `proc.wait(timeout_secs)` returns normally, i.e. the process
  exited within the timeout (only consulted when the graceful step did not
  raise); `false` means `TimeoutExpired` was raised. -/
  exitsWithinTimeout : Bool
  /-- The value of `proc.is_running()` in the `finally` block. -/
  aliveAtFinally : Bool
deriving DecidableEq, Repr

/-- `psutil` semantics tying the environment fields together: if the wait
returned normally the process has terminated, so `proc.is_running()` in
the `finally` block is false. -/
def ProcEnv.WF (env : ProcEnv) : Prop :=
  env.gracefulRaises = false → env.exitsWithinTimeout = true →
    env.aliveAtFinally = false

/-- Observable outcome of one `safe_kill` call. -/
structure KillResult where
  /-- The exception propagated to the caller, if any. -/
  raised : Option KillExn
  /-- Whether the `finally` block executed `proc.kill()`. -/
  killInvoked : Bool
deriving DecidableEq, Repr

/-- `safe_kill(pid, kill_signal, timeout_secs, force_kill, silence)`.
`psutil.Process(pid)` runs before the `try`, so its `NoSuchProcess` is
never caught.  Inside the `try`, the graceful request runs, then
`proc.wait`; the `except` block re-raises only when `silence` is false;
the `finally` block force-kills when `force_kill` is set and
`proc.is_running()` is still true. -/
def safe_kill (env : ProcEnv) (force_kill silence : Bool) : KillResult :=
  if env.pidExists = false then
    { raised := some .noSuchProcess, killInvoked := false }
  else
    let tryExn : Option KillExn :=
      if env.gracefulRaises then some .gracefulError
      else if env.exitsWithinTimeout then none
      else some .timeoutExpired
    let raised : Option KillExn :=
      match tryExn with
      | some e => if silence then none else some e
      | none => none
    { raised := raised, killInvoked := force_kill && env.aliveAtFinally }

/-! ## `_win_nice_kill` -/

/-- `WinCtrlEvent` members used by `_win_nice_kill` (signed, as Python
ints compare with arbitrary caller-supplied codes). -/
def CTRL_C_EVENT : Int := 0

/-- `WinCtrlEvent.CTRL_BREAK_EVENT`. -/
def CTRL_BREAK_EVENT : Int := 1

/-- Outcomes of the two graceful branches on Windows, as an environment:
`none` means the branch succeeds, `some msg` that it raises with message
`msg` (`_win_send_wm_close` raises when no window is found;
`_win_console_event_kill` raises when attach or the control event fails). -/
structure WinEnv where
  wmCloseError : Option String
  consoleError : Option String
deriving DecidableEq, Repr

/-- Observable outcome of `_win_nice_kill`. -/
inductive WinKillOutcome
  /-- Returned after `_win_send_wm_close` succeeded. -/
  | closedWindow
  /-- Returned after `_win_console_event_kill` succeeded with this code. -/
  | sentConsoleEvent (code : Int)
  /-- Raised `SafeExitException(' and '.join(error_msg))`. -/
  | failed (error_msg : List String)
deriving DecidableEq, Repr

/-- `_win_nice_kill(pid, kill_signal)`: try `_win_send_wm_close` when
`kill_signal` is `None` or above `CTRL_BREAK_EVENT`; on failure collect
the message; then try `_win_console_event_kill` when `kill_signal` is
`None` (using `CTRL_C_EVENT`) or equals `CTRL_C_EVENT`/`CTRL_BREAK_EVENT`
(using it); on failure collect the message; finally raise the combined
error. -/
def win_nice_kill (env : WinEnv) (kill_signal : Option Int) : WinKillOutcome :=
  let error_msg : List String := []
  let cond1 : Bool :=
    match kill_signal with
    | none => true
    | some c => c > CTRL_BREAK_EVENT
  let cond2 : Bool :=
    match kill_signal with
    | none => true
    | some c => c = CTRL_C_EVENT ∨ c = CTRL_BREAK_EVENT
  if cond1 then
    match env.wmCloseError with
    | none => .closedWindow
    | some m1 =>
      let error_msg := error_msg ++ [m1]
      if cond2 then
        match env.consoleError with
        | none =>
            .sentConsoleEvent
              (match kill_signal with
               | none => CTRL_C_EVENT
               | some c => c)
        | some m2 => .failed (error_msg ++ [m2])
      else .failed error_msg
  else
    if cond2 then
      match env.consoleError with
      | none =>
          .sentConsoleEvent
            (match kill_signal with
             | none => CTRL_C_EVENT
             | some c => c)
      | some m2 => .failed (error_msg ++ [m2])
    else .failed error_msg

/-! ## `config` / `_register_signals` / `register` and the module state -/

/-- `os.name` values the module branches on. -/
inductive OsName
  | posix
  | nt
deriving DecidableEq, Repr

/-- The `ConfigFlag` bit-set, one field per member. -/
structure ConfigFlag where
  sigquit : Bool
  sighup : Bool
  sigbreak : Bool
  ctrl_close : Bool
  ctrl_shutdown : Bool
  ctrl_logoff : Bool
  auto_create_console : Bool
  force_hide_console : Bool
deriving DecidableEq, Repr

/-- `DEFAULT_CONFIG = SIGQUIT | SIGHUP | SIGBREAK | CONFIG_CTRL_ALL`. -/
def DEFAULT_CONFIG : ConfigFlag :=
  { sigquit := true, sighup := true, sigbreak := true,
    ctrl_close := true, ctrl_shutdown := true, ctrl_logoff := true,
    auto_create_console := false, force_hide_console := false }

/-- The signals `signal.signal` is called on. -/
inductive Sig
  | sigint
  | sigterm
  | sigquit
  | sighup
  | sigbreak
deriving DecidableEq, Repr

/-- The mutable module-level state: the `_registered` boolean, the set of
signals currently bound to `_signal_handler` (kept in installation order),
the console-control handler (the event list it was installed with, if
any), and the `_exit_funcs` list. -/
structure ModuleState where
  registered : Bool
  handled : List Sig
  ctrlHandler : Option (List Nat)
  exit_funcs : List ExitFunc
deriving DecidableEq, Repr

/-- The state at interpreter start: `_registered = False`,
`_ctrl_handler = None`, `_exit_funcs = []`, no handler installed. -/
def initState : ModuleState :=
  { registered := false, handled := [], ctrlHandler := none, exit_funcs := [] }

/-- `signal.signal(sig, _signal_handler)`: after the call `sig` is bound
to our handler; rebinding an already-bound signal changes nothing in the
set. -/
def installSig (s : Sig) (hs : List Sig) : List Sig :=
  if s ∈ hs then hs else hs ++ [s]

/-- `WinCtrlEvent` numeric values used when building the `events` list. -/
def CTRL_CLOSE_EVENT : Nat := 2

/-- `WinCtrlEvent.CTRL_LOGOFF_EVENT`. -/
def CTRL_LOGOFF_EVENT : Nat := 5

/-- `WinCtrlEvent.CTRL_SHUTDOWN_EVENT`. -/
def CTRL_SHUTDOWN_EVENT : Nat := 6

/-- The `signal.signal` calls of `_register_signals(flag)` in order:
SIGINT and SIGTERM unconditionally, then on POSIX SIGQUIT/SIGHUP per
flag, then on Windows SIGBREAK per flag. -/
def sigBindings (os : OsName) (flag : ConfigFlag) (hs : List Sig) : List Sig :=
  let h := installSig .sigterm (installSig .sigint hs)
  let h := if os = .posix ∧ flag.sigquit then installSig .sigquit h else h
  let h := if os = .posix ∧ flag.sighup then installSig .sighup h else h
  if os = .nt ∧ flag.sigbreak then installSig .sigbreak h else h

/-- The `events` list `_register_signals` builds on Windows. -/
def ctrlEvents (os : OsName) (flag : ConfigFlag) : List Nat :=
  if os = .nt then
    (if flag.ctrl_close then [CTRL_CLOSE_EVENT] else []) ++
    (if flag.ctrl_logoff then [CTRL_LOGOFF_EVENT] else []) ++
    (if flag.ctrl_shutdown then [CTRL_SHUTDOWN_EVENT] else [])
  else []

/-- `_register_signals(flag)`: make the signal bindings, then on Windows
call `_register_ctrl_handler(events)` when `events` is nonempty — that
call raises `WinError` when `SetConsoleCtrlHandler` fails
(`ctrlInstallFails`), in which case `_registered = True` is never reached
(but the signal bindings made before the raise stay).  Returns the new
state and the raised exception, if any. -/
def register_signals (os : OsName) (ctrlInstallFails : Bool) (flag : ConfigFlag)
    (st : ModuleState) : ModuleState × Option Unit :=
  if os = .nt ∧ ctrlEvents os flag ≠ [] then
    if ctrlInstallFails then
      ({ st with handled := sigBindings os flag st.handled }, some ())
    else
      ({ st with
          handled := sigBindings os flag st.handled,
          ctrlHandler := some (ctrlEvents os flag),
          registered := true }, none)
  else
    ({ st with handled := sigBindings os flag st.handled, registered := true }, none)

/-- `config(flag)`: the Windows console allocate/hide steps touch no
modelled state; then `_register_signals(flag)` runs.  `config` does not
consult `_registered`. -/
def config (os : OsName) (ctrlInstallFails : Bool) (flag : ConfigFlag)
    (st : ModuleState) : ModuleState × Option Unit :=
  register_signals os ctrlInstallFails flag st

/-- `register(func, *args, **kwargs)`: when `_registered` is still false,
call `config(DEFAULT_CONFIG)` first — if that raises, the exception
propagates and the append is never executed; otherwise append the entry
to `_exit_funcs`. -/
def register (os : OsName) (ctrlInstallFails : Bool) (e : ExitFunc)
    (st : ModuleState) : ModuleState × Option Unit :=
  if st.registered = false then
    match config os ctrlInstallFails DEFAULT_CONFIG st with
    | (st1, some err) => (st1, some err)
    | (st1, none) =>
        ({ st1 with exit_funcs := st1.exit_funcs ++ [e] }, none)
  else
    ({ st with exit_funcs := st.exit_funcs ++ [e] }, none)

/-- `unregister` acting on the module state (it only touches
`_exit_funcs` and never raises). -/
def unregisterState (f : Nat) (st : ModuleState) : ModuleState :=
  { st with exit_funcs := unregister f st.exit_funcs }

/-- A call the user code can make between process start and the
termination trigger. -/
inductive Op
  | config (flag : ConfigFlag)
  | register (e : ExitFunc)
  | unregister (f : Nat)
deriving DecidableEq, Repr

/-- Apply one call to the module state (discarding the raised/returned
value: a raise leaves the state as the code left it). -/
def applyOp (os : OsName) (ctrlInstallFails : Bool) (op : Op)
    (st : ModuleState) : ModuleState :=
  match op with
  | .config flag => (config os ctrlInstallFails flag st).1
  | .register e => (register os ctrlInstallFails e st).1
  | .unregister f => unregisterState f st

/-- Apply a sequence of calls left to right. -/
def applyOps (os : OsName) (ctrlInstallFails : Bool) (ops : List Op)
    (st : ModuleState) : ModuleState :=
  ops.foldl (fun s op => applyOp os ctrlInstallFails op s) st

/-! ## Concurrent invocations of `_call_exit_funcs`

Two execution contexts (e.g. the interpreter's exit path and the
console-control callback, which the OS runs on a separate thread) can
each enter `_call_exit_funcs`.  The function takes no lock and checks no
flag; under the interpreter's scheduling a context switch can happen at
any bytecode boundary, in particular while a registered action runs.
Each run of the body is a sequence of atomic steps: read the current
`_exit_funcs` binding to start the `for` loop (the iterator then walks
the list object read at that moment), one step per action invocation,
and the final rebinding of the global to `[]`. -/

/-- Where one invocation of `_call_exit_funcs` stands: not yet entered,
iterating with this remaining portion of the list it captured at entry,
or past the final `_exit_funcs = []` rebinding. -/
inductive ThreadPhase
  | notStarted
  | iterating (rest : List ExitFunc)
  | finished
deriving DecidableEq, Repr

/-- Shared state plus the two invocations' positions.  `log` records
every action invocation, in order. -/
structure ConcState where
  globalFuncs : List ExitFunc
  log : List ExitFunc
  t1 : ThreadPhase
  t2 : ThreadPhase
deriving DecidableEq, Repr

/-- One atomic step of one invocation of `_call_exit_funcs`:
enter the loop (capturing the current global list), invoke the next
action, or rebind the global to `[]` and finish. -/
def threadStep (ph : ThreadPhase) (g log : List ExitFunc) :
    ThreadPhase × List ExitFunc × List ExitFunc :=
  match ph with
  | .notStarted => (.iterating g, g, log)
  | .iterating (e :: rest) => (.iterating rest, g, log ++ [e])
  | .iterating [] => (.finished, [], log)
  | .finished => (.finished, g, log)

/-- Run one step of the scheduled invocation (`false` = first,
`true` = second). -/
def schedStep (c : ConcState) (who : Bool) : ConcState :=
  if who then
    let r := threadStep c.t2 c.globalFuncs c.log
    { c with t2 := r.1, globalFuncs := r.2.1, log := r.2.2 }
  else
    let r := threadStep c.t1 c.globalFuncs c.log
    { c with t1 := r.1, globalFuncs := r.2.1, log := r.2.2 }

/-- Run a whole schedule (an interleaving of the two invocations). -/
def runSched (c : ConcState) : List Bool → ConcState
  | [] => c
  | who :: rest => runSched (schedStep c who) rest

/-- Initial concurrent state: registry holds `funcs`, neither invocation
has entered yet, nothing invoked. -/
def concInit (funcs : List ExitFunc) : ConcState :=
  { globalFuncs := funcs, log := [], t1 := .notStarted, t2 := .notStarted }

/-! ## Helper lemmas -/

/-- The drain loop invokes exactly the entries of the list, in order,
whatever subset of them raises. -/
theorem drainLoop_fst (raises : ExitFunc → Bool) (funcs : List ExitFunc) :
    (drainLoop raises funcs).1 = funcs := by
  induction funcs with
  | nil => rfl
  | cons e rest ih => simp [drainLoop, ih]

/-- The drain loop logs exactly the entries whose invocation raised, in
order. -/
theorem drainLoop_snd (raises : ExitFunc → Bool) (funcs : List ExitFunc) :
    (drainLoop raises funcs).2 = funcs.filter raises := by
  induction funcs with
  | nil => rfl
  | cons e rest ih =>
      simp only [drainLoop, List.filter_cons, ih]
      cases h : raises e <;> simp [h]

/-- Binding a signal handler never unbinds the others. -/
theorem sublist_installSig (s : Sig) (hs : List Sig) :
    List.Sublist hs (installSig s hs) := by
  unfold installSig
  split
  · exact List.Sublist.refl hs
  · exact List.sublist_append_left hs [s]

/-- The bindings present before `_register_signals`'s `signal.signal`
calls are still present (in order) after them. -/
theorem sublist_sigBindings (os : OsName) (flag : ConfigFlag) (hs : List Sig) :
    List.Sublist hs (sigBindings os flag hs) := by
  unfold sigBindings
  have step : ∀ (c : Prop) [Decidable c] (s : Sig) (l : List Sig),
      List.Sublist l (if c then installSig s l else l) := by
    intro c _ s l
    split
    · exact sublist_installSig s l
    · exact List.Sublist.refl l
  exact ((sublist_installSig .sigint hs).trans
    (sublist_installSig .sigterm _)).trans
    ((step (os = .posix ∧ flag.sigquit) .sigquit _).trans
      ((step (os = .posix ∧ flag.sighup) .sighup _).trans
        (step (os = .nt ∧ flag.sigbreak) .sigbreak _)))

/-- `_register_signals` either raises (and `_registered` was not set by
this call) or completes with `_registered = True`. -/
theorem register_signals_err_or_registered (os : OsName) (fails : Bool)
    (flag : ConfigFlag) (st : ModuleState) :
    (register_signals os fails flag st).2 = some () ∨
      (register_signals os fails flag st).1.registered = true := by
  unfold register_signals
  by_cases h1 : os = .nt ∧ ctrlEvents os flag ≠ []
  · rw [if_pos h1]
    cases fails
    · exact Or.inr rfl
    · exact Or.inl rfl
  · rw [if_neg h1]
    exact Or.inr rfl

/-- `_register_signals` only ever sets `_registered`, never clears it. -/
theorem register_signals_registered_mono (os : OsName) (fails : Bool)
    (flag : ConfigFlag) (st : ModuleState) (h : st.registered = true) :
    (register_signals os fails flag st).1.registered = true := by
  unfold register_signals
  by_cases h1 : os = .nt ∧ ctrlEvents os flag ≠ []
  · rw [if_pos h1]
    cases fails
    · exact rfl
    · exact h
  · rw [if_neg h1]

/-- `_register_signals` never touches `_exit_funcs`. -/
theorem register_signals_exit_funcs (os : OsName) (fails : Bool)
    (flag : ConfigFlag) (st : ModuleState) :
    (register_signals os fails flag st).1.exit_funcs = st.exit_funcs := by
  unfold register_signals
  by_cases h1 : os = .nt ∧ ctrlEvents os flag ≠ []
  · rw [if_pos h1]
    cases fails
    · exact rfl
    · exact rfl
  · rw [if_neg h1]

/-- `_register_signals` only adds signal bindings: the bindings present
before the call are still present (in order) after it. -/
theorem register_signals_handled_sublist (os : OsName) (fails : Bool)
    (flag : ConfigFlag) (st : ModuleState) :
    List.Sublist st.handled (register_signals os fails flag st).1.handled := by
  have hb := sublist_sigBindings os flag st.handled
  unfold register_signals
  by_cases h1 : os = .nt ∧ ctrlEvents os flag ≠ []
  · rw [if_pos h1]
    cases fails
    · exact hb
    · exact hb
  · rw [if_neg h1]
    exact hb

/-! ## Claims -/

/-- C4: after `_call_exit_funcs` completes once, `_exit_funcs` is empty,
so a second sequential call invokes zero actions: the first run invokes
exactly the registered entries and the second run invokes none. -/
theorem claim_C4_drain_idempotent (raises : ExitFunc → Bool)
    (funcs : List ExitFunc) :
    (call_exit_funcs raises funcs).invoked = funcs ∧
    (call_exit_funcs raises funcs).newFuncs = [] ∧
    (call_exit_funcs raises
      (call_exit_funcs raises funcs).newFuncs).invoked = [] := by
  refine ⟨drainLoop_fst raises funcs, rfl, rfl⟩

/-- C5: for every sequence of `config`/`register`/`unregister` calls
(under any platform and any ctrl-handler-install outcome), when the drain
fires it invokes exactly the entries registered at that moment — each
entry once, in registration order, with the positional and keyword
arguments captured at registration time (the invoked list is the registry
list itself, entries carrying their captured arguments). -/
theorem claim_C5_invoke_in_order (os : OsName) (fails : Bool)
    (ops : List Op) (raises : ExitFunc → Bool) :
    (call_exit_funcs raises
      (applyOps os fails ops initState).exit_funcs).invoked =
        (applyOps os fails ops initState).exit_funcs ∧
    ∀ e : ExitFunc,
      ((call_exit_funcs raises
        (applyOps os fails ops initState).exit_funcs).invoked).count e =
          ((applyOps os fails ops initState).exit_funcs).count e := by
  refine ⟨drainLoop_fst raises _, fun e => ?_⟩
  rw [show (call_exit_funcs raises
    (applyOps os fails ops initState).exit_funcs).invoked =
      (applyOps os fails ops initState).exit_funcs from drainLoop_fst raises _]

/-- C6: during the drain an action that raises is caught and logged and
does not stop the pass: whatever subset of the entries raises, every
entry is still invoked (in particular everything after a failing entry),
and exactly the raising entries are logged.  `call_exit_funcs` is a total
function — no exception channel exists, mirroring the blanket
`except Exception` of the source. -/
theorem claim_C6_exception_isolated (raises : ExitFunc → Bool)
    (funcs : List ExitFunc) :
    (call_exit_funcs raises funcs).invoked = funcs ∧
    (call_exit_funcs raises funcs).logged = funcs.filter raises := by
  exact ⟨drainLoop_fst raises funcs, drainLoop_snd raises funcs⟩

/-- C9: `unregister(func)` removes every entry whose callable equals
`func` — it equals the order-preserving filter, so duplicates of the
callable all go, the relative order of the remaining entries is
preserved, and when no entry matches it returns the list unchanged
(and, being a total function, it never raises). -/
theorem claim_C9_unregister_filter (f : Nat) (l : List ExitFunc) :
    unregister f l = l.filter (fun e => e.func ≠ f) ∧
    ((∀ e ∈ l, e.func ≠ f) → unregister f l = l) := by
  refine ⟨unregister_eq_filter f l, fun h => ?_⟩
  rw [unregister_eq_filter]
  exact List.filter_eq_self.mpr (fun e he => by simpa using h e he)

/-- Witness for C9 at a concrete input: unregistering a never-registered
callable leaves the one-entry registry unchanged. -/
theorem claim_C9_witness :
    unregister 5 [{ func := 1, args := [2], kwargs := [] }] =
      [{ func := 1, args := [2], kwargs := [] }] :=
  (claim_C9_unregister_filter 5 [{ func := 1, args := [2], kwargs := [] }]).2
    (by decide)

/-- C1 counterexample: on a nonexistent pid with `silence=True`,
`safe_kill` still raises `NoSuchProcess` — `psutil.Process(pid)` runs
before the `try`, so the claim that it returns without raising is false. -/
theorem claim_C1_counterexample :
    (safe_kill
      { pidExists := false, gracefulRaises := false,
        exitsWithinTimeout := false, aliveAtFinally := false }
      true true).raised = some KillExn.noSuchProcess := by
  decide

/-- C1 amended: on a nonexistent pid `safe_kill` raises `NoSuchProcess`
regardless of `silence` (so with `silence=False` it raises, as claimed,
but with `silence=True` it raises too: process resolution happens before
the `try`/`except` that `silence` gates), and no force-kill runs. -/
theorem claim_C1_amended (env : ProcEnv) (force_kill silence : Bool)
    (h : env.pidExists = false) :
    (safe_kill env force_kill silence).raised = some KillExn.noSuchProcess ∧
    (safe_kill env force_kill silence).killInvoked = false := by
  unfold safe_kill
  rw [if_pos h]
  exact ⟨rfl, rfl⟩

/-- Witness for the amended C1 at a concrete environment. -/
theorem claim_C1_amended_witness :
    (safe_kill
      { pidExists := false, gracefulRaises := true,
        exitsWithinTimeout := true, aliveAtFinally := true }
      true false).raised = some KillExn.noSuchProcess ∧
    (safe_kill
      { pidExists := false, gracefulRaises := true,
        exitsWithinTimeout := true, aliveAtFinally := true }
      true false).killInvoked = false :=
  claim_C1_amended
    { pidExists := false, gracefulRaises := true,
      exitsWithinTimeout := true, aliveAtFinally := true }
    true false rfl

/-- C7: for an existing pid, the `finally` block kills exactly when
`force_kill` is set and `proc.is_running()` is still true — whatever the
graceful step and the wait did and whatever `silence` is; and under the
`psutil` semantics (wait returning normally means the process died), a
process that exits within the timeout is never force-killed. -/
theorem claim_C7_force_kill (env : ProcEnv) (force_kill silence : Bool)
    (hex : env.pidExists = true) (hwf : env.WF) :
    (safe_kill env force_kill silence).killInvoked
        = (force_kill && env.aliveAtFinally) ∧
    (env.gracefulRaises = false → env.exitsWithinTimeout = true →
      (safe_kill env force_kill silence).killInvoked = false) := by
  constructor
  · unfold safe_kill
    rw [if_neg (by simp [hex])]
  · intro h1 h2
    unfold safe_kill
    rw [if_neg (by simp [hex])]
    simp [hwf h1 h2]

/-- Witness for C7: a process that ignores the graceful request and
survives the wait gets force-killed even though `silence` is set and the
wait raised. -/
theorem claim_C7_force_kill_witness :
    (safe_kill
      { pidExists := true, gracefulRaises := false,
        exitsWithinTimeout := false, aliveAtFinally := true }
      true true).killInvoked = (true && true) :=
  (claim_C7_force_kill
    { pidExists := true, gracefulRaises := false,
      exitsWithinTimeout := false, aliveAtFinally := true }
    true true rfl (fun _ h => by simp at h)).1

/-- C3 (divergence witness): `_call_exit_funcs` takes no lock and checks
no flag, so when two termination triggers run it concurrently, both can
capture the still-uncleared list and invoke the same action: with one
registered action and the interleaving
enter-1, enter-2, invoke-1, invoke-2, clear-1, clear-2, the action runs
twice — the claim's "no action invoked twice" guard does not exist in the
code. -/
theorem claim_C3_race :
    ((runSched (concInit [{ func := 0, args := [], kwargs := [] }])
      [false, true, false, true, false, true]).log).count
        { func := 0, args := [], kwargs := [] } = 2 := by
  decide

/-- C2 counterexample: a second `config` call after the first
registration does change which handlers are installed — configuring with
no optional flags installs only SIGINT/SIGTERM, and a later
`config` with SIGQUIT set adds the SIGQUIT binding, so "first
configuration wins" fails. -/
theorem claim_C2_counterexample :
    (config .posix false
      { sigquit := true, sighup := false, sigbreak := false,
        ctrl_close := false, ctrl_shutdown := false, ctrl_logoff := false,
        auto_create_console := false, force_hide_console := false }
      (config .posix false
        { sigquit := false, sighup := false, sigbreak := false,
          ctrl_close := false, ctrl_shutdown := false, ctrl_logoff := false,
          auto_create_console := false, force_hide_console := false }
        initState).1).1.handled ≠
    (config .posix false
      { sigquit := false, sighup := false, sigbreak := false,
        ctrl_close := false, ctrl_shutdown := false, ctrl_logoff := false,
        auto_create_console := false, force_hide_console := false }
      initState).1.handled := by
  decide

/-- C2 amended: the process-wide `_registered` boolean starts false,
becomes true when configuration/registration completes without raising,
and is never reset by any later call; but re-running `config` is not a
no-op — it re-installs handlers per the new flags (it can only add
bindings, never remove them, as the sublist conjunct states). -/
theorem claim_C2_amended (os : OsName) (fails : Bool) (flag : ConfigFlag)
    (st : ModuleState) (op : Op) :
    initState.registered = false ∧
    ((config os fails flag st).2 = none →
      (config os fails flag st).1.registered = true) ∧
    (st.registered = true → (applyOp os fails op st).registered = true) ∧
    List.Sublist st.handled (config os fails flag st).1.handled := by
  refine ⟨rfl, ?_, ?_, register_signals_handled_sublist os fails flag st⟩
  · intro h
    rcases register_signals_err_or_registered os fails flag st with he | hr
    · rw [show config os fails flag st
          = register_signals os fails flag st from rfl, he] at h
      cases h
    · exact hr
  · intro h
    cases op with
    | config flag2 => exact register_signals_registered_mono os fails flag2 st h
    | register e =>
        show (register os fails e st).1.registered = true
        unfold register
        rw [if_neg (by simp [h])]
        exact h
    | unregister f => exact h

/-- Witness for the amended C2: the first successful configuration flips
`_registered` to true. -/
theorem claim_C2_amended_witness :
    (config .posix false DEFAULT_CONFIG initState).1.registered = true :=
  (claim_C2_amended .posix false DEFAULT_CONFIG initState (Op.unregister 0)).2.1
    rfl

/-- C10: when `register` runs with the dispatcher not yet installed and
the lazily-triggered `config(DEFAULT_CONFIG)` raises (console-control
handler installation failed), the exception propagates out of `register`
and the append never executes: `_exit_funcs` is exactly what it was. -/
theorem claim_C10_register_atomic (os : OsName) (fails : Bool)
    (e : ExitFunc) (st : ModuleState) (hr : st.registered = false)
    (h : (config os fails DEFAULT_CONFIG st).2 = some ()) :
    (register os fails e st).2 = some () ∧
    (register os fails e st).1.exit_funcs = st.exit_funcs := by
  unfold register
  rw [if_pos hr]
  cases hc : config os fails DEFAULT_CONFIG st with
  | mk st1 r =>
    rw [hc] at h
    cases r with
    | none => cases h
    | some u =>
        cases u
        refine ⟨rfl, ?_⟩
        have hef := register_signals_exit_funcs os fails DEFAULT_CONFIG st
        rw [show config os fails DEFAULT_CONFIG st
            = register_signals os fails DEFAULT_CONFIG st from rfl] at hc
        rw [hc] at hef
        exact hef

/-- Witness for C10: on Windows with `SetConsoleCtrlHandler` failing, the
first `register` raises and leaves `_exit_funcs` empty. -/
theorem claim_C10_register_atomic_witness :
    (register .nt true { func := 0, args := [], kwargs := [] }
      initState).2 = some () ∧
    (register .nt true { func := 0, args := [], kwargs := [] }
      initState).1.exit_funcs = initState.exit_funcs :=
  claim_C10_register_atomic .nt true { func := 0, args := [], kwargs := [] }
    initState rfl (by decide)

/-- C8: `_win_nice_kill`'s decision table.  With no caller-supplied code,
window-close is tried first and the console branch runs with
`CTRL_C_EVENT` only if window-close raised; with a code above
`CTRL_BREAK_EVENT`, only window-close is tried; with a code equal to
`CTRL_C_EVENT` or `CTRL_BREAK_EVENT`, window-close is skipped and only
the console branch runs with the given code; whenever every attempted
branch failed, the result is the combined error carrying every collected
failure message in order. -/
theorem claim_C8_win_decision_table (env : WinEnv) (c : Int) (m1 m2 : String) :
    (env.wmCloseError = none →
      win_nice_kill env none = .closedWindow) ∧
    (env.wmCloseError = some m1 → env.consoleError = none →
      win_nice_kill env none = .sentConsoleEvent CTRL_C_EVENT) ∧
    (env.wmCloseError = some m1 → env.consoleError = some m2 →
      win_nice_kill env none = .failed [m1, m2]) ∧
    (c > CTRL_BREAK_EVENT →
      (env.wmCloseError = none →
        win_nice_kill env (some c) = .closedWindow) ∧
      (env.wmCloseError = some m1 →
        win_nice_kill env (some c) = .failed [m1])) ∧
    ((c = CTRL_C_EVENT ∨ c = CTRL_BREAK_EVENT) →
      (env.consoleError = none →
        win_nice_kill env (some c) = .sentConsoleEvent c) ∧
      (env.consoleError = some m2 →
        win_nice_kill env (some c) = .failed [m2])) := by
  refine ⟨?_, ?_, ?_, ?_, ?_⟩
  · intro h
    simp [win_nice_kill, h]
  · intro h1 h2
    simp [win_nice_kill, h1, h2]
  · intro h1 h2
    simp [win_nice_kill, h1, h2]
  · intro hc
    have hgt : decide (c > CTRL_BREAK_EVENT) = true := by simpa using hc
    have hne : ¬(c = CTRL_C_EVENT ∨ c = CTRL_BREAK_EVENT) := by
      simp only [CTRL_C_EVENT, CTRL_BREAK_EVENT] at hc ⊢
      push_neg
      omega
    constructor
    · intro h
      simp [win_nice_kill, h, hgt]
    · intro h
      simp [win_nice_kill, h, hgt, hne]
  · intro hc
    have hngt : ¬(c > CTRL_BREAK_EVENT) := by
      simp only [CTRL_C_EVENT, CTRL_BREAK_EVENT] at hc ⊢
      rcases hc with h | h <;> omega
    constructor
    · intro h
      simp [win_nice_kill, h, hngt, hc]
    · intro h
      simp [win_nice_kill, h, hngt, hc]

/-- Witness for C8 at a concrete case of the table: with no code given,
a failing window-close and a failing console branch produce the combined
error listing both messages. -/
theorem claim_C8_win_decision_table_witness :
    win_nice_kill { wmCloseError := some "w", consoleError := some "c" }
      none = WinKillOutcome.failed ["w", "c"] :=
  (claim_C8_win_decision_table
    { wmCloseError := some "w", consoleError := some "c" }
    2 "w" "c").2.2.1 rfl rfl

end SafeExit
